import Mathlib

/-!
Shallow embedding of the token rate-limiting and reservation core of the
serverless AI gateway (module `eventhandlers/token_meter.py`, plus the
admission portion of `eventhandlers/chatbot_handler.py`).

Modelling conventions:
* The DynamoDB table is a list of items (partition key `user_id`, sort key
  `period_id`); DynamoDB keys are unique, and the list operations below
  update / replace the first matching item.
* Machine integers are `Nat` (token counts and epoch timestamps are
  non-negative in the source).
* A store call that the Python code wraps in `try/except` is modelled with an
  explicit `fail : Bool` argument selecting the `except` branch: the Python
  client either returns a response or raises, and the handlers catch every
  exception.
* Wall-clock-derived strings (period keys, today's date) and the generated
  uuid are passed as explicit arguments, mirroring the `datetime.now()` /
  `uuid.uuid4()` calls.
* `int(x * 0.5)` on a non-negative int `x` equals `x / 2` (floor) for every
  value representable in a double, so reservation sizing uses `Nat` division
  by 2.
-/

/-- A DynamoDB item of the `UserTokenUsage` table.  `timestamp` (the spec's
`created_at`) and `ttl` are optional attributes: `none` models the attribute
being absent, which is what `if_not_exists` tests. -/
structure Item where
  user_id : String
  period_id : String
  input_tokens : Nat
  output_tokens : Nat
  timestamp : Option Nat
  ttl : Option Nat
  deriving DecidableEq

/-- The DynamoDB table contents. -/
abbrev Store := List Item

/-- Key match for (user_id, period_id). -/
def keyMatch (uid pid : String) (it : Item) : Bool :=
  it.user_id == uid && it.period_id == pid

/-- DynamoDB `get_item`: the (unique) item with the given key, if present. -/
def dynGetItem (store : Store) (uid pid : String) : Option Item :=
  List.find? (keyMatch uid pid) store

/-- DynamoDB `put_item`: unconditional upsert, replacing the item with the
same key if present. -/
def dynPutItem : Store → Item → Store
  | [], it => [it]
  | x :: rest, it =>
      if keyMatch it.user_id it.period_id x then it :: rest
      else x :: dynPutItem rest it

/-- DynamoDB `delete_item`. -/
def dynDeleteItem (store : Store) (uid pid : String) : Store :=
  List.filter (fun it => !keyMatch uid pid it) store

/-- Whether `p` is a string prefix of `s` (DynamoDB `begins_with`). -/
def beginsWith (s p : String) : Bool :=
  List.isPrefixOf p.data s.data

/-- DynamoDB `query` with `begins_with(period_id, :prefix)`. -/
def dynQueryPrefix (store : Store) (uid pfx : String) : List Item :=
  List.filter (fun it => it.user_id == uid && beginsWith it.period_id pfx) store

/-- Lexicographic order on character lists by code point (for the ASCII
sort keys used here this agrees with DynamoDB's UTF-8 byte order). -/
def charListLe : List Char → List Char → Bool
  | [], _ => true
  | _ :: _, [] => false
  | a :: as, b :: bs =>
      if a.toNat < b.toNat then true
      else if b.toNat < a.toNat then false
      else charListLe as bs

/-- Lexicographic string comparison for the DynamoDB sort key. -/
def strLe (a b : String) : Bool :=
  charListLe a.data b.data

/-- DynamoDB `query` with `period_id BETWEEN :start AND :end` (lexicographic
string comparison on the sort key). -/
def dynQueryBetween (store : Store) (uid startKey endKey : String) : List Item :=
  List.filter
    (fun it =>
      it.user_id == uid && strLe startKey it.period_id
        && strLe it.period_id endKey)
    store

/-- The effect of `update_item` with update expression
`ADD input_tokens :i, output_tokens :o
 SET #ts = if_not_exists(#ts, :ts), #ttl = :ttl`:
the first item with the key gets the deltas added, its `timestamp` kept when
already set, and its `ttl` unconditionally overwritten; when no item has the
key a fresh item is created. -/
def dynUpdateAdd (store : Store) (uid pid : String) (i o ts ttlv : Nat) : Store :=
  match store with
  | [] => [⟨uid, pid, i, o, some ts, some ttlv⟩]
  | x :: rest =>
      if keyMatch uid pid x then
        { x with
          input_tokens := x.input_tokens + i
          output_tokens := x.output_tokens + o
          timestamp := some (x.timestamp.getD ts)
          ttl := some ttlv } :: rest
      else x :: dynUpdateAdd rest uid pid i o ts ttlv

/-- A period configuration dictionary (`create_ten_minute_period` etc.).
The time-valued closures (`id_format`, `round_time`, `ttl_delta`,
`query_window`) are not represented as fields: the key strings and ttl
values they produce are passed to the operations as explicit arguments. -/
structure PeriodConfig where
  name : String
  description : String
  input_limit : Nat
  output_limit : Nat
  pfx : String
  aggregate : Bool
  deriving DecidableEq

/-- The `10min` ("daily") period configuration from `create_ten_minute_period`. -/
def create_ten_minute_period (input_limit output_limit : Nat) : PeriodConfig :=
  { name := "10min", description := "daily", input_limit := input_limit,
    output_limit := output_limit, pfx := "10min:", aggregate := true }

/-- The monthly period configuration from `create_monthly_period`. -/
def create_monthly_period (input_limit output_limit : Nat) : PeriodConfig :=
  { name := "monthly", description := "monthly", input_limit := input_limit,
    output_limit := output_limit, pfx := "monthly:", aggregate := false }

/-- The hourly period configuration from `create_hourly_period`. -/
def create_hourly_period (input_limit output_limit : Nat) : PeriodConfig :=
  { name := "hourly", description := "hourly", input_limit := input_limit,
    output_limit := output_limit, pfx := "hourly:", aggregate := false }

/-- Environment defaults (`os.environ.get(..., default)`). -/
def DAILY_INPUT_LIMIT_default : Nat := 10000
def DAILY_OUTPUT_LIMIT_default : Nat := 20000
def MONTHLY_INPUT_LIMIT_default : Nat := 100000
def MONTHLY_OUTPUT_LIMIT_default : Nat := 200000
def RESERVATION_TTL_MINUTES_default : Nat := 10

/-- A usage dictionary `{"input_tokens": .., "output_tokens": ..}`. -/
structure Usage where
  input_tokens : Nat
  output_tokens : Nat
  deriving DecidableEq

namespace TokenMeter

/-- `TokenMeter._sum_period_usage`. -/
def sum_period_usage (items : List Item) : Usage :=
  { input_tokens := (items.map Item.input_tokens).sum
    output_tokens := (items.map Item.output_tokens).sum }

/-- `TokenMeter._get_usage`, aggregate branch with a query window (the 10min
meter): range query between the window-start key and the now key; any store
error yields zero usage. -/
def get_usage_aggregate (fail : Bool) (store : Store) (uid startKey endKey : String) :
    Usage :=
  if fail then ⟨0, 0⟩
  else sum_period_usage (dynQueryBetween store uid startKey endKey)

/-- `TokenMeter._get_usage`, direct branch (monthly / hourly meters): a
single `get_item`; a missing record or a store error yields zero usage. -/
def get_usage_direct (fail : Bool) (store : Store) (uid pid : String) : Usage :=
  if fail then ⟨0, 0⟩
  else
    match dynGetItem store uid pid with
    | none => ⟨0, 0⟩
    | some it => ⟨it.input_tokens, it.output_tokens⟩

/-- `TokenMeter.is_limit_exceeded` applied to the usage `_get_usage`
returned: input check first, then output check. -/
def is_limit_exceeded (cfg : PeriodConfig) (u : Usage) :
    Bool × Option String × Usage :=
  if cfg.input_limit ≤ u.input_tokens then (true, some "input", u)
  else if cfg.output_limit ≤ u.output_tokens then (true, some "output", u)
  else (false, none, u)

/-- `TokenMeter.update_usage`: on success one atomic `update_item` against
the current bucket; on a store error the table is unchanged and `False` is
returned. `pid` is `id_format(round_time(now))`, `ts` is `now.timestamp()`,
`ttlv` is `(now + ttl_delta).timestamp()`. -/
def update_usage (fail : Bool) (store : Store) (uid pid : String)
    (input_tokens output_tokens ts ttlv : Nat) : Bool × Store :=
  if fail then (false, store)
  else (true, dynUpdateAdd store uid pid input_tokens output_tokens ts ttlv)

end TokenMeter

/-- The consolidated usage dictionary built by
`TokenLimiter.is_limit_exceeded`; the three reservation keys are added later
by `is_limit_exceeded_with_reservation` (`none` models an absent key). -/
structure TotalUsage where
  input_tokens : Nat
  output_tokens : Nat
  monthly_input_tokens : Nat
  monthly_output_tokens : Nat
  daily_input_tokens : Nat
  daily_output_tokens : Nat
  total_reserved_tokens : Option Nat := none
  new_reservation_amount : Option Nat := none
  total_with_reservation : Option Nat := none
  deriving DecidableEq

/-- The all-zero consolidated usage the limiter loop starts from. -/
def zeroTotal : TotalUsage :=
  { input_tokens := 0, output_tokens := 0, monthly_input_tokens := 0,
    monthly_output_tokens := 0, daily_input_tokens := 0,
    daily_output_tokens := 0 }

/-- Result tuple of `TokenLimiter.is_limit_exceeded`. -/
structure LimiterResult where
  exceeded : Bool
  token_type : Option String
  period : Option String
  usage : TotalUsage
  deriving DecidableEq

/-- Reservation amount `int(daily_output_limit * 0.5)`
(floor of half the `DAILY_OUTPUT_LIMIT` environment value). -/
def reservation_amount (daily_output_limit : Nat) : Nat :=
  daily_output_limit / 2

/-- Reservation sort key
`"reservation:daily:" + date_str + ":" + reservation_uuid`. -/
def reservationId (date uuid : String) : String :=
  "reservation:daily:" ++ date ++ ":" ++ uuid

/-- Reservation key namespace for one calendar date. -/
def reservationPrefix (date : String) : String :=
  "reservation:daily:" ++ date ++ ":"

namespace TokenReservationManager

/-- `TokenReservationManager.create_reservation`: writes a reservation item
holding 0 input tokens and half the `DAILY_OUTPUT_LIMIT` environment value
as output tokens, with a TTL of `RESERVATION_TTL_MINUTES` minutes; a store
error returns `none` and leaves the table unchanged. -/
def create_reservation (fail : Bool) (store : Store) (uid : String)
    (env_daily_output_limit : Nat) (uuid date : String) (now ttlMinutes : Nat) :
    Option String × Store :=
  if fail then (none, store)
  else
    let amount := reservation_amount env_daily_output_limit
    let rid := reservationId date uuid
    (some rid,
     dynPutItem store
       { user_id := uid, period_id := rid, input_tokens := 0,
         output_tokens := amount, timestamp := some now,
         ttl := some (now + ttlMinutes * 60) })

/-- `TokenReservationManager.remove_reservation`: unconditional delete; a
store error returns `False` and leaves the table unchanged. -/
def remove_reservation (fail : Bool) (store : Store) (uid rid : String) :
    Bool × Store :=
  if fail then (false, store)
  else (true, dynDeleteItem store uid rid)

/-- `TokenReservationManager.get_active_reservations`: prefix query over
today's reservation namespace; a store error yields the empty list.  Note
the query does not inspect the `ttl` attribute. -/
def get_active_reservations (fail : Bool) (store : Store) (uid date : String) :
    List Item :=
  if fail then []
  else dynQueryPrefix store uid (reservationPrefix date)

/-- `TokenReservationManager.get_total_reserved_tokens`: sum of the
`output_tokens` of the active reservations. -/
def get_total_reserved_tokens (fail : Bool) (store : Store) (uid date : String) :
    Nat :=
  ((get_active_reservations fail store uid date).map Item.output_tokens).sum

end TokenReservationManager

namespace TokenLimiter

/-- One step of the fields update in `TokenLimiter.is_limit_exceeded`:
labelled fields per meter name, then generic fields via `max`. -/
def updateTotal (tu : TotalUsage) (cfg : PeriodConfig) (u : Usage) : TotalUsage :=
  let tu1 :=
    if cfg.name = "monthly" then
      { tu with monthly_input_tokens := u.input_tokens,
                monthly_output_tokens := u.output_tokens }
    else if cfg.name = "10min" then
      { tu with daily_input_tokens := u.input_tokens,
                daily_output_tokens := u.output_tokens }
    else tu
  { tu1 with input_tokens := max tu1.input_tokens u.input_tokens,
             output_tokens := max tu1.output_tokens u.output_tokens }

/-- The meter loop of `TokenLimiter.is_limit_exceeded`.  Each meter is
paired with the usage its `_get_usage` returned for the principal. -/
def limiterLoop : List (PeriodConfig × Usage) → TotalUsage → LimiterResult
  | [], tu => ⟨false, none, none, tu⟩
  | (cfg, u) :: rest, tu =>
      let r := TokenMeter.is_limit_exceeded cfg u
      let tu1 := updateTotal tu cfg u
      if r.1 then ⟨true, r.2.1, some cfg.description, tu1⟩
      else limiterLoop rest tu1

/-- `TokenLimiter.is_limit_exceeded`: evaluate the meters in list order,
starting from the all-zero consolidated usage. -/
def is_limit_exceeded (ms : List (PeriodConfig × Usage)) : LimiterResult :=
  limiterLoop ms zeroTotal

/-- `TokenLimiter.is_limit_exceeded_with_reservation`: the regular check,
then the reservation arithmetic against the `DAILY_OUTPUT_LIMIT`
environment value. -/
def is_limit_exceeded_with_reservation (ms : List (PeriodConfig × Usage))
    (env_daily_output_limit total_reserved : Nat) : LimiterResult :=
  let r := is_limit_exceeded ms
  if r.exceeded then r
  else
    let amount := reservation_amount env_daily_output_limit
    let current_daily_output := r.usage.daily_output_tokens
    let total_with_new := current_daily_output + total_reserved + amount
    let usage1 :=
      { r.usage with
        total_reserved_tokens := some total_reserved,
        new_reservation_amount := some amount,
        total_with_reservation := some total_with_new }
    if env_daily_output_limit < total_with_new then
      ⟨true, some "output", some "daily", usage1⟩
    else ⟨false, none, none, usage1⟩

/-- `TokenLimiter.create_reservation`: re-checks the limits including the
reservation arithmetic (`resFail` is the store flag of the reservation
query, `createFail` the flag of the `put_item`), then asks the reservation
manager to write the record. -/
def create_reservation (ms : List (PeriodConfig × Usage))
    (env_daily_output_limit : Nat) (resFail createFail : Bool) (store : Store)
    (uid uuid date : String) (now ttlMinutes : Nat) : Option String × Store :=
  let reserved :=
    TokenReservationManager.get_total_reserved_tokens resFail store uid date
  let r := is_limit_exceeded_with_reservation ms env_daily_output_limit reserved
  if r.exceeded then (none, store)
  else
    TokenReservationManager.create_reservation createFail store uid
      env_daily_output_limit uuid date now ttlMinutes

/-- `TokenLimiter.get_meter_limits`: the dictionary comprehension
`{meter.name: meter.period_config["input_limit"] for meter in self.meters}`. -/
def get_meter_limits (ms : List PeriodConfig) : List (String × Nat) :=
  ms.map (fun cfg => (cfg.name, cfg.input_limit))

end TokenLimiter

/-- Outcome of the admission portion of `lambda_handler`
(`chatbot_handler.py`): either a reservation id, or an error event of the
given type whose details carry a token type and a period. -/
inductive AdmissionOutcome where
  | admitted (reservation_id : String)
  | denied (error_type token_type period : String)
  deriving DecidableEq

/-- The admission decision sequence of `lambda_handler`: the plain
`is_limit_exceeded` check first (error type `"token_limit_exceeded"` with
the exceeded meter's token type and period), then `create_reservation`; a
`None` reservation id is reported as error type `"reservation_failed"`
with hard-coded details `tokenType="output"`, `period="daily"`. -/
def lambda_handler_admission (ms : List (PeriodConfig × Usage))
    (env_daily_output_limit : Nat) (resFail createFail : Bool) (store : Store)
    (uid uuid date : String) (now ttlMinutes : Nat) : AdmissionOutcome × Store :=
  let base := TokenLimiter.is_limit_exceeded ms
  if base.exceeded then
    (.denied "token_limit_exceeded" (base.token_type.getD "")
      (base.period.getD ""), store)
  else
    match TokenLimiter.create_reservation ms env_daily_output_limit resFail
        createFail store uid uuid date now ttlMinutes with
    | (none, s1) => (.denied "reservation_failed" "output" "daily", s1)
    | (some rid, s1) => (.admitted rid, s1)

/-- One call to `TokenLimiter.update_usage` / `TokenMeter.update_usage`
as seen by the store: the period key, the deltas, the timestamp and ttl
values derived from the call time, and whether the store raised. -/
structure RecordCall where
  fail : Bool
  uid : String
  pid : String
  input_tokens : Nat
  output_tokens : Nat
  ts : Nat
  ttlv : Nat

/-- Replay a sequence of `record` calls against the store. -/
def applyRecordCalls (calls : List RecordCall) (store : Store) : Store :=
  calls.foldl
    (fun s c =>
      (TokenMeter.update_usage c.fail s c.uid c.pid c.input_tokens
        c.output_tokens c.ts c.ttlv).2)
    store

/-- The input-token counter of one bucket as an observer reads it
(absent record reads as zero). -/
def bucketInput (store : Store) (uid pid : String) : Nat :=
  ((dynGetItem store uid pid).map Item.input_tokens).getD 0

/-- The output-token counter of one bucket as an observer reads it. -/
def bucketOutput (store : Store) (uid pid : String) : Nat :=
  ((dynGetItem store uid pid).map Item.output_tokens).getD 0

/-! Concrete fixtures used by witness and counterexample theorems. -/

/-- The default meter pair (10-minute "daily" meter, monthly meter), each
having observed zero usage. -/
def metersDefault : List (PeriodConfig × Usage) :=
  [(create_ten_minute_period DAILY_INPUT_LIMIT_default DAILY_OUTPUT_LIMIT_default, ⟨0, 0⟩),
   (create_monthly_period MONTHLY_INPUT_LIMIT_default MONTHLY_OUTPUT_LIMIT_default, ⟨0, 0⟩)]

/-- A table holding two live reservations of 10000 output tokens for "u". -/
def storeTwoReservations : Store :=
  [⟨"u", "reservation:daily:2025-06-01:a1", 0, 10000, some 0, some 600⟩,
   ⟨"u", "reservation:daily:2025-06-01:a2", 0, 10000, some 0, some 600⟩]

/-- A table holding one live reservation of 10000 output tokens for "u". -/
def storeOneReservation : Store :=
  [⟨"u", "reservation:daily:2025-06-01:a1", 0, 10000, some 0, some 600⟩]

/-- A table holding a single reservation of 500 output tokens for "u" whose
ttl (epoch second 100) has already elapsed at observation time 1000. -/
def storeExpiredReservation : Store :=
  [⟨"u", "reservation:daily:2025-06-01:a1", 0, 500, some 0, some 100⟩]

/-- Modelled from the spec: `total_reserved(principal)` as the spec words
it — the sum of `reserved_output_tokens` over today's reservation records
whose TTL has not yet elapsed at time `now` (expiry test as in
`cleanup_expired_reservations`: expired iff `now > ttl`).  Stated for
comparison with `get_total_reserved_tokens`, which the source implements
without any TTL test. -/
def spec_total_reserved_nonexpired (store : Store) (uid date : String)
    (now : Nat) : Nat :=
  ((store.filter
      (fun it =>
        it.user_id == uid && beginsWith it.period_id (reservationPrefix date)
          && decide (now ≤ it.ttl.getD 0))).map Item.output_tokens).sum

/-- Modelled from the spec: `reservation_size()` as the spec words it — a
configured fraction (numerator over denominator, default one half) of the
finest-grained (shortest-window) policy's configured output limit.  Stated
for comparison with `reservation_amount`, which the source computes from
the `DAILY_OUTPUT_LIMIT` environment value with a hard-coded one-half
fraction. -/
def spec_reservation_size (fraction_num fraction_den finest_output_limit : Nat) :
    Nat :=
  finest_output_limit * fraction_num / fraction_den

/-! Specification-side functions used to state the theorems. -/

/-- Whether a single meter reports its limits exceeded for the usage it saw. -/
def exceededP (m : PeriodConfig × Usage) : Bool :=
  decide (m.1.input_limit ≤ m.2.input_tokens)
    || decide (m.1.output_limit ≤ m.2.output_tokens)

/-- The token kind an exceeded meter reports: input takes priority. -/
def meterKind (cfg : PeriodConfig) (u : Usage) : String :=
  if cfg.input_limit ≤ u.input_tokens then "input" else "output"

/-- The meters a short-circuiting evaluation visits: the prefix up to and
including the first exceeded meter. -/
def evaluatedMeters : List (PeriodConfig × Usage) → List (PeriodConfig × Usage)
  | [] => []
  | m :: rest => if exceededP m then [m] else m :: evaluatedMeters rest

/-- The usage of the last meter with the given name in a list, if any. -/
def lastLabeled (nm : String) : List (PeriodConfig × Usage) → Option Usage
  | [] => none
  | m :: rest =>
      match lastLabeled nm rest with
      | some u => some u
      | none => if m.1.name = nm then some m.2 else none

theorem TokenMeter.is_limit_exceeded_eq (cfg : PeriodConfig) (u : Usage) :
    TokenMeter.is_limit_exceeded cfg u =
      (exceededP (cfg, u),
       if exceededP (cfg, u) = true then some (meterKind cfg u) else none, u) := by
  by_cases h1 : cfg.input_limit ≤ u.input_tokens
  · simp [TokenMeter.is_limit_exceeded, exceededP, meterKind, h1]
  · by_cases h2 : cfg.output_limit ≤ u.output_tokens <;>
      simp [TokenMeter.is_limit_exceeded, exceededP, meterKind, h1, h2]

theorem updateTotal_input (tu : TotalUsage) (cfg : PeriodConfig) (u : Usage) :
    (TokenLimiter.updateTotal tu cfg u).input_tokens =
      max tu.input_tokens u.input_tokens := by
  simp only [TokenLimiter.updateTotal]
  split_ifs <;> rfl

theorem updateTotal_output (tu : TotalUsage) (cfg : PeriodConfig) (u : Usage) :
    (TokenLimiter.updateTotal tu cfg u).output_tokens =
      max tu.output_tokens u.output_tokens := by
  simp only [TokenLimiter.updateTotal]
  split_ifs <;> rfl

theorem updateTotal_daily_input (tu : TotalUsage) (cfg : PeriodConfig) (u : Usage) :
    (TokenLimiter.updateTotal tu cfg u).daily_input_tokens =
      if cfg.name = "10min" then u.input_tokens else tu.daily_input_tokens := by
  simp only [TokenLimiter.updateTotal]
  split_ifs with h1 h2 <;> simp_all

theorem updateTotal_daily_output (tu : TotalUsage) (cfg : PeriodConfig) (u : Usage) :
    (TokenLimiter.updateTotal tu cfg u).daily_output_tokens =
      if cfg.name = "10min" then u.output_tokens else tu.daily_output_tokens := by
  simp only [TokenLimiter.updateTotal]
  split_ifs with h1 h2 <;> simp_all

theorem updateTotal_monthly_input (tu : TotalUsage) (cfg : PeriodConfig) (u : Usage) :
    (TokenLimiter.updateTotal tu cfg u).monthly_input_tokens =
      if cfg.name = "monthly" then u.input_tokens else tu.monthly_input_tokens := by
  simp only [TokenLimiter.updateTotal]
  split_ifs with h1 h2 <;> simp_all

theorem updateTotal_monthly_output (tu : TotalUsage) (cfg : PeriodConfig) (u : Usage) :
    (TokenLimiter.updateTotal tu cfg u).monthly_output_tokens =
      if cfg.name = "monthly" then u.output_tokens else tu.monthly_output_tokens := by
  simp only [TokenLimiter.updateTotal]
  split_ifs with h1 h2 <;> simp_all

theorem updateTotal_reserved_fields (tu : TotalUsage) (cfg : PeriodConfig) (u : Usage) :
    (TokenLimiter.updateTotal tu cfg u).total_reserved_tokens = tu.total_reserved_tokens
    ∧ (TokenLimiter.updateTotal tu cfg u).new_reservation_amount = tu.new_reservation_amount
    ∧ (TokenLimiter.updateTotal tu cfg u).total_with_reservation = tu.total_with_reservation := by
  simp only [TokenLimiter.updateTotal]
  split_ifs <;> exact ⟨rfl, rfl, rfl⟩

theorem limiterLoop_eq (ms : List (PeriodConfig × Usage)) (tu : TotalUsage) :
    TokenLimiter.limiterLoop ms tu =
      { exceeded := (ms.find? exceededP).isSome,
        token_type := (ms.find? exceededP).map (fun m => meterKind m.1 m.2),
        period := (ms.find? exceededP).map (fun m => m.1.description),
        usage := (evaluatedMeters ms).foldl
          (fun a m => TokenLimiter.updateTotal a m.1 m.2) tu } := by
  induction ms generalizing tu with
  | nil => rfl
  | cons m rest ih =>
      obtain ⟨cfg, u⟩ := m
      by_cases h : exceededP (cfg, u)
      · simp [TokenLimiter.limiterLoop, TokenMeter.is_limit_exceeded_eq,
          evaluatedMeters, List.find?, h]
      · simp [TokenLimiter.limiterLoop, TokenMeter.is_limit_exceeded_eq,
          evaluatedMeters, List.find?, h, ih]

theorem TotalUsage.eq_of_fields (a b : TotalUsage)
    (h1 : a.input_tokens = b.input_tokens)
    (h2 : a.output_tokens = b.output_tokens)
    (h3 : a.monthly_input_tokens = b.monthly_input_tokens)
    (h4 : a.monthly_output_tokens = b.monthly_output_tokens)
    (h5 : a.daily_input_tokens = b.daily_input_tokens)
    (h6 : a.daily_output_tokens = b.daily_output_tokens)
    (h7 : a.total_reserved_tokens = b.total_reserved_tokens)
    (h8 : a.new_reservation_amount = b.new_reservation_amount)
    (h9 : a.total_with_reservation = b.total_with_reservation) : a = b := by
  cases a; cases b; simp_all

theorem foldl_updateTotal_input (l : List (PeriodConfig × Usage)) (tu : TotalUsage) :
    (l.foldl (fun a m => TokenLimiter.updateTotal a m.1 m.2) tu).input_tokens =
      l.foldl (fun a m => max a m.2.input_tokens) tu.input_tokens := by
  induction l generalizing tu with
  | nil => rfl
  | cons m rest ih => simp [List.foldl_cons, ih, updateTotal_input]

theorem foldl_updateTotal_output (l : List (PeriodConfig × Usage)) (tu : TotalUsage) :
    (l.foldl (fun a m => TokenLimiter.updateTotal a m.1 m.2) tu).output_tokens =
      l.foldl (fun a m => max a m.2.output_tokens) tu.output_tokens := by
  induction l generalizing tu with
  | nil => rfl
  | cons m rest ih => simp [List.foldl_cons, ih, updateTotal_output]

theorem foldl_updateTotal_daily_input (l : List (PeriodConfig × Usage)) (tu : TotalUsage) :
    (l.foldl (fun a m => TokenLimiter.updateTotal a m.1 m.2) tu).daily_input_tokens =
      ((lastLabeled "10min" l).map Usage.input_tokens).getD tu.daily_input_tokens := by
  induction l generalizing tu with
  | nil => rfl
  | cons m rest ih =>
      simp only [List.foldl_cons, ih, lastLabeled]
      cases h : lastLabeled "10min" rest with
      | some u => simp
      | none =>
          simp only [Option.map_none, Option.getD_none, updateTotal_daily_input]
          split_ifs <;> simp

theorem foldl_updateTotal_daily_output (l : List (PeriodConfig × Usage)) (tu : TotalUsage) :
    (l.foldl (fun a m => TokenLimiter.updateTotal a m.1 m.2) tu).daily_output_tokens =
      ((lastLabeled "10min" l).map Usage.output_tokens).getD tu.daily_output_tokens := by
  induction l generalizing tu with
  | nil => rfl
  | cons m rest ih =>
      simp only [List.foldl_cons, ih, lastLabeled]
      cases h : lastLabeled "10min" rest with
      | some u => simp
      | none =>
          simp only [Option.map_none, Option.getD_none, updateTotal_daily_output]
          split_ifs <;> simp

theorem foldl_updateTotal_monthly_input (l : List (PeriodConfig × Usage)) (tu : TotalUsage) :
    (l.foldl (fun a m => TokenLimiter.updateTotal a m.1 m.2) tu).monthly_input_tokens =
      ((lastLabeled "monthly" l).map Usage.input_tokens).getD tu.monthly_input_tokens := by
  induction l generalizing tu with
  | nil => rfl
  | cons m rest ih =>
      simp only [List.foldl_cons, ih, lastLabeled]
      cases h : lastLabeled "monthly" rest with
      | some u => simp
      | none =>
          simp only [Option.map_none, Option.getD_none, updateTotal_monthly_input]
          split_ifs <;> simp

theorem foldl_updateTotal_monthly_output (l : List (PeriodConfig × Usage)) (tu : TotalUsage) :
    (l.foldl (fun a m => TokenLimiter.updateTotal a m.1 m.2) tu).monthly_output_tokens =
      ((lastLabeled "monthly" l).map Usage.output_tokens).getD tu.monthly_output_tokens := by
  induction l generalizing tu with
  | nil => rfl
  | cons m rest ih =>
      simp only [List.foldl_cons, ih, lastLabeled]
      cases h : lastLabeled "monthly" rest with
      | some u => simp
      | none =>
          simp only [Option.map_none, Option.getD_none, updateTotal_monthly_output]
          split_ifs <;> simp

theorem foldl_updateTotal_reserved (l : List (PeriodConfig × Usage)) (tu : TotalUsage) :
    (l.foldl (fun a m => TokenLimiter.updateTotal a m.1 m.2) tu).total_reserved_tokens
        = tu.total_reserved_tokens
    ∧ (l.foldl (fun a m => TokenLimiter.updateTotal a m.1 m.2) tu).new_reservation_amount
        = tu.new_reservation_amount
    ∧ (l.foldl (fun a m => TokenLimiter.updateTotal a m.1 m.2) tu).total_with_reservation
        = tu.total_with_reservation := by
  induction l generalizing tu with
  | nil => exact ⟨rfl, rfl, rfl⟩
  | cons m rest ih =>
      simp only [List.foldl_cons]
      obtain ⟨a1, a2, a3⟩ := ih (TokenLimiter.updateTotal tu m.1 m.2)
      obtain ⟨b1, b2, b3⟩ := updateTotal_reserved_fields tu m.1 m.2
      exact ⟨a1.trans b1, a2.trans b2, a3.trans b3⟩

/-- C6: `TokenLimiter.is_limit_exceeded` evaluates the meters in list order
and short-circuits at the first exceeded meter, whose token kind (input
checked before output) and period description it returns; the consolidated
usage has generic `input_tokens` / `output_tokens` equal to the maximum of
the values observed across the evaluated meters, `daily_*` fields holding
the usage of the 10-minute meter and `monthly_*` fields holding the usage
of the monthly meter (zero when such a meter was not evaluated). -/
theorem limiter_short_circuit_and_merge (ms : List (PeriodConfig × Usage)) :
    TokenLimiter.is_limit_exceeded ms =
      { exceeded := (ms.find? exceededP).isSome,
        token_type := (ms.find? exceededP).map (fun m => meterKind m.1 m.2),
        period := (ms.find? exceededP).map (fun m => m.1.description),
        usage :=
          { input_tokens :=
              ((evaluatedMeters ms).map (fun m => m.2.input_tokens)).foldl max 0,
            output_tokens :=
              ((evaluatedMeters ms).map (fun m => m.2.output_tokens)).foldl max 0,
            monthly_input_tokens :=
              ((lastLabeled "monthly" (evaluatedMeters ms)).map Usage.input_tokens).getD 0,
            monthly_output_tokens :=
              ((lastLabeled "monthly" (evaluatedMeters ms)).map Usage.output_tokens).getD 0,
            daily_input_tokens :=
              ((lastLabeled "10min" (evaluatedMeters ms)).map Usage.input_tokens).getD 0,
            daily_output_tokens :=
              ((lastLabeled "10min" (evaluatedMeters ms)).map Usage.output_tokens).getD 0 } } := by
  rw [TokenLimiter.is_limit_exceeded, limiterLoop_eq]
  congr 1
  apply TotalUsage.eq_of_fields
  · rw [foldl_updateTotal_input]; simp [List.foldl_map, zeroTotal]
  · rw [foldl_updateTotal_output]; simp [List.foldl_map, zeroTotal]
  · exact foldl_updateTotal_monthly_input _ _
  · exact foldl_updateTotal_monthly_output _ _
  · exact foldl_updateTotal_daily_input _ _
  · exact foldl_updateTotal_daily_output _ _
  · exact (foldl_updateTotal_reserved _ _).1
  · exact (foldl_updateTotal_reserved _ _).2.1
  · exact (foldl_updateTotal_reserved _ _).2.2

theorem with_reservation_of_not_exceeded (ms : List (PeriodConfig × Usage))
    (env reserved : Nat)
    (hbase : (TokenLimiter.is_limit_exceeded ms).exceeded = false) :
    TokenLimiter.is_limit_exceeded_with_reservation ms env reserved =
      (if env < (TokenLimiter.is_limit_exceeded ms).usage.daily_output_tokens
            + reserved + reservation_amount env then
        ⟨true, some "output", some "daily",
          { (TokenLimiter.is_limit_exceeded ms).usage with
            total_reserved_tokens := some reserved,
            new_reservation_amount := some (reservation_amount env),
            total_with_reservation :=
              some ((TokenLimiter.is_limit_exceeded ms).usage.daily_output_tokens
                + reserved + reservation_amount env) }⟩
      else
        ⟨false, none, none,
          { (TokenLimiter.is_limit_exceeded ms).usage with
            total_reserved_tokens := some reserved,
            new_reservation_amount := some (reservation_amount env),
            total_with_reservation :=
              some ((TokenLimiter.is_limit_exceeded ms).usage.daily_output_tokens
                + reserved + reservation_amount env) }⟩) := by
  simp only [TokenLimiter.is_limit_exceeded_with_reservation, hbase,
    Bool.false_eq_true, if_false]

/-- C1: when the plain rate-limit check passes but
`daily_output + total_reserved + reservation_amount` strictly exceeds the
daily output limit, the reservation-aware check reports exceeded with token
type "output" and period "daily", the limiter refuses to create a
reservation, and the handler denies the request with a
"reservation_failed" error whose details carry tokenType "output" and
period "daily"; when the sum equals the limit exactly, the check passes and
the request is admitted with a fresh reservation id. -/
theorem admission_arithmetic_denial (ms : List (PeriodConfig × Usage))
    (env : Nat) (store : Store) (uid uuid date : String) (now ttlMinutes : Nat)
    (hbase : (TokenLimiter.is_limit_exceeded ms).exceeded = false) :
    (env < (TokenLimiter.is_limit_exceeded ms).usage.daily_output_tokens
        + TokenReservationManager.get_total_reserved_tokens false store uid date
        + reservation_amount env →
      (TokenLimiter.is_limit_exceeded_with_reservation ms env
        (TokenReservationManager.get_total_reserved_tokens false store uid date)).exceeded
          = true
      ∧ (TokenLimiter.is_limit_exceeded_with_reservation ms env
          (TokenReservationManager.get_total_reserved_tokens false store uid date)).token_type
            = some "output"
      ∧ (TokenLimiter.is_limit_exceeded_with_reservation ms env
          (TokenReservationManager.get_total_reserved_tokens false store uid date)).period
            = some "daily"
      ∧ TokenLimiter.create_reservation ms env false false store uid uuid date now ttlMinutes
          = (none, store)
      ∧ lambda_handler_admission ms env false false store uid uuid date now ttlMinutes
          = (.denied "reservation_failed" "output" "daily", store))
    ∧ ((TokenLimiter.is_limit_exceeded ms).usage.daily_output_tokens
        + TokenReservationManager.get_total_reserved_tokens false store uid date
        + reservation_amount env = env →
      (TokenLimiter.is_limit_exceeded_with_reservation ms env
        (TokenReservationManager.get_total_reserved_tokens false store uid date)).exceeded
          = false
      ∧ (lambda_handler_admission ms env false false store uid uuid date now
          ttlMinutes).1 = .admitted (reservationId date uuid)) := by
  rw [with_reservation_of_not_exceeded ms env _ hbase]
  constructor
  · intro h
    rw [if_pos h]
    refine ⟨rfl, rfl, rfl, ?_, ?_⟩
    · rw [TokenLimiter.create_reservation,
        with_reservation_of_not_exceeded ms env _ hbase, if_pos h]
      rfl
    · rw [lambda_handler_admission]
      rw [hbase]
      simp only [Bool.false_eq_true, if_false]
      rw [TokenLimiter.create_reservation,
        with_reservation_of_not_exceeded ms env _ hbase, if_pos h]
      rfl
  · intro h
    have hlt : ¬ env < (TokenLimiter.is_limit_exceeded ms).usage.daily_output_tokens
        + TokenReservationManager.get_total_reserved_tokens false store uid date
        + reservation_amount env := by omega
    rw [if_neg hlt]
    refine ⟨rfl, ?_⟩
    rw [lambda_handler_admission]
    rw [hbase]
    simp only [Bool.false_eq_true, if_false]
    rw [TokenLimiter.create_reservation,
      with_reservation_of_not_exceeded ms env _ hbase, if_neg hlt]
    rfl

set_option maxRecDepth 10000 in
/-- Witness for the admission-arithmetic theorem at the default limits:
two visible reservations of 10000 tokens deny the request, one reservation
of 10000 tokens (the sum sitting exactly at the limit) admits it. -/
theorem admission_arithmetic_denial_witness :
    ((TokenLimiter.is_limit_exceeded metersDefault).exceeded = false
      ∧ lambda_handler_admission metersDefault 20000 false false
          storeTwoReservations "u" "b1" "2025-06-01" 0 10
          = (.denied "reservation_failed" "output" "daily", storeTwoReservations))
    ∧ ((TokenLimiter.is_limit_exceeded metersDefault).exceeded = false
      ∧ (lambda_handler_admission metersDefault 20000 false false
          storeOneReservation "u" "b1" "2025-06-01" 0 10).1
          = .admitted (reservationId "2025-06-01" "b1")) := by
  constructor
  · exact ⟨by decide,
      ((admission_arithmetic_denial metersDefault 20000 storeTwoReservations
        "u" "b1" "2025-06-01" 0 10 (by decide)).1 (by decide)).2.2.2.2⟩
  · exact ⟨by decide,
      ((admission_arithmetic_denial metersDefault 20000 storeOneReservation
        "u" "b1" "2025-06-01" 0 10 (by decide)).2 (by decide)).2⟩


/-- C7: reads fail open. A store failure during `_get_usage` yields zero
usage in both the aggregate and the direct branch, a missing record (empty
range query / absent item) also yields zero usage, and under a store read
failure the single-meter exceeded check reports not-exceeded whenever both
limits are positive.  The embedded functions are total, so no store error
escapes to the caller. -/
theorem meter_fail_open (cfg : PeriodConfig) (store : Store)
    (uid pid startKey endKey : String)
    (hin : 0 < cfg.input_limit) (hout : 0 < cfg.output_limit) :
    TokenMeter.get_usage_aggregate true store uid startKey endKey = ⟨0, 0⟩
    ∧ TokenMeter.get_usage_direct true store uid pid = ⟨0, 0⟩
    ∧ (dynGetItem store uid pid = none →
        TokenMeter.get_usage_direct false store uid pid = ⟨0, 0⟩)
    ∧ (dynQueryBetween store uid startKey endKey = [] →
        TokenMeter.get_usage_aggregate false store uid startKey endKey = ⟨0, 0⟩)
    ∧ TokenMeter.is_limit_exceeded cfg
        (TokenMeter.get_usage_aggregate true store uid startKey endKey)
        = (false, none, ⟨0, 0⟩)
    ∧ TokenMeter.is_limit_exceeded cfg
        (TokenMeter.get_usage_direct true store uid pid)
        = (false, none, ⟨0, 0⟩) := by
  have hni : ¬ cfg.input_limit ≤ (0 : Nat) := by omega
  have hno : ¬ cfg.output_limit ≤ (0 : Nat) := by omega
  refine ⟨rfl, rfl, ?_, ?_, ?_, ?_⟩
  · intro h; simp [TokenMeter.get_usage_direct, h]
  · intro h
    simp [TokenMeter.get_usage_aggregate, h, TokenMeter.sum_period_usage]
  · simp [TokenMeter.get_usage_aggregate, TokenMeter.is_limit_exceeded, hni, hno]
  · simp [TokenMeter.get_usage_direct, TokenMeter.is_limit_exceeded, hni, hno]

/-- Witness for the fail-open read theorem at the default 10-minute policy. -/
theorem meter_fail_open_witness :
    0 < (create_ten_minute_period 10000 20000).input_limit
    ∧ 0 < (create_ten_minute_period 10000 20000).output_limit
    ∧ dynGetItem storeOneReservation "u" "monthly:2025-06" = none
    ∧ dynQueryBetween storeOneReservation "u" "10min:2025-05-31:10:00"
        "10min:2025-06-01:10:00" = []
    ∧ TokenMeter.get_usage_direct false storeOneReservation "u" "monthly:2025-06"
        = ⟨0, 0⟩
    ∧ TokenMeter.get_usage_aggregate false storeOneReservation "u"
        "10min:2025-05-31:10:00" "10min:2025-06-01:10:00" = ⟨0, 0⟩
    ∧ TokenMeter.is_limit_exceeded (create_ten_minute_period 10000 20000)
        (TokenMeter.get_usage_aggregate true storeOneReservation "u"
          "10min:2025-05-31:10:00" "10min:2025-06-01:10:00")
        = (false, none, ⟨0, 0⟩) := by
  have h := meter_fail_open (create_ten_minute_period 10000 20000)
    storeOneReservation "u" "monthly:2025-06" "10min:2025-05-31:10:00"
    "10min:2025-06-01:10:00" (by decide) (by decide)
  exact ⟨by decide, by decide, by decide, by decide,
    h.2.2.1 (by decide), h.2.2.2.1 (by decide), h.2.2.2.2.1⟩

theorem bucketInput_dynUpdateAdd_le (store : Store) (uidc pidc : String)
    (i o ts ttlv : Nat) (uid pid : String) :
    bucketInput store uid pid ≤
      bucketInput (dynUpdateAdd store uidc pidc i o ts ttlv) uid pid := by
  induction store with
  | nil => simp [bucketInput, dynGetItem]
  | cons x rest ih =>
      by_cases hc : keyMatch uidc pidc x
      · by_cases hq : keyMatch uid pid x
        · have hq2 : keyMatch uid pid
              { x with input_tokens := x.input_tokens + i,
                       output_tokens := x.output_tokens + o,
                       timestamp := some (x.timestamp.getD ts),
                       ttl := some ttlv } = true := hq
          simp [bucketInput, dynUpdateAdd, hc, dynGetItem, List.find?, hq, hq2]
        · have hq2 : keyMatch uid pid
              { x with input_tokens := x.input_tokens + i,
                       output_tokens := x.output_tokens + o,
                       timestamp := some (x.timestamp.getD ts),
                       ttl := some ttlv } = false := by
            simpa using hq
          simp [bucketInput, dynUpdateAdd, hc, dynGetItem, List.find?, hq, hq2]
      · by_cases hq : keyMatch uid pid x
        · simp [bucketInput, dynUpdateAdd, hc, dynGetItem, List.find?, hq]
        · simpa [bucketInput, dynUpdateAdd, hc, dynGetItem, List.find?, hq] using ih

theorem bucketOutput_dynUpdateAdd_le (store : Store) (uidc pidc : String)
    (i o ts ttlv : Nat) (uid pid : String) :
    bucketOutput store uid pid ≤
      bucketOutput (dynUpdateAdd store uidc pidc i o ts ttlv) uid pid := by
  induction store with
  | nil => simp [bucketOutput, dynGetItem]
  | cons x rest ih =>
      by_cases hc : keyMatch uidc pidc x
      · by_cases hq : keyMatch uid pid x
        · have hq2 : keyMatch uid pid
              { x with input_tokens := x.input_tokens + i,
                       output_tokens := x.output_tokens + o,
                       timestamp := some (x.timestamp.getD ts),
                       ttl := some ttlv } = true := hq
          simp [bucketOutput, dynUpdateAdd, hc, dynGetItem, List.find?, hq, hq2]
        · have hq2 : keyMatch uid pid
              { x with input_tokens := x.input_tokens + i,
                       output_tokens := x.output_tokens + o,
                       timestamp := some (x.timestamp.getD ts),
                       ttl := some ttlv } = false := by
            simpa using hq
          simp [bucketOutput, dynUpdateAdd, hc, dynGetItem, List.find?, hq, hq2]
      · by_cases hq : keyMatch uid pid x
        · simp [bucketOutput, dynUpdateAdd, hc, dynGetItem, List.find?, hq]
        · simpa [bucketOutput, dynUpdateAdd, hc, dynGetItem, List.find?, hq] using ih

/-- C9: counters are monotone. Replaying any sequence of `record` calls
(successful or failed, to any principal and bucket) never decreases the
observed `input_tokens` or `output_tokens` of any bucket. -/
theorem record_calls_monotone (calls : List RecordCall) (store : Store)
    (uid pid : String) :
    bucketInput store uid pid ≤ bucketInput (applyRecordCalls calls store) uid pid
    ∧ bucketOutput store uid pid ≤
        bucketOutput (applyRecordCalls calls store) uid pid := by
  induction calls generalizing store with
  | nil => exact ⟨le_refl _, le_refl _⟩
  | cons c rest ih =>
      have hstep :
          bucketInput store uid pid ≤
            bucketInput (TokenMeter.update_usage c.fail store c.uid c.pid
              c.input_tokens c.output_tokens c.ts c.ttlv).2 uid pid
          ∧ bucketOutput store uid pid ≤
            bucketOutput (TokenMeter.update_usage c.fail store c.uid c.pid
              c.input_tokens c.output_tokens c.ts c.ttlv).2 uid pid := by
        cases hf : c.fail with
        | true => simp [TokenMeter.update_usage]
        | false =>
            simp only [TokenMeter.update_usage, Bool.false_eq_true, if_false]
            exact ⟨bucketInput_dynUpdateAdd_le _ _ _ _ _ _ _ _ _,
              bucketOutput_dynUpdateAdd_le _ _ _ _ _ _ _ _ _⟩
      have hrest := ih ((TokenMeter.update_usage c.fail store c.uid c.pid
        c.input_tokens c.output_tokens c.ts c.ttlv).2)
      exact ⟨le_trans hstep.1 hrest.1, le_trans hstep.2 hrest.2⟩

theorem dynGetItem_dynPutItem (store : Store) (it : Item) :
    dynGetItem (dynPutItem store it) it.user_id it.period_id = some it := by
  induction store with
  | nil => simp [dynPutItem, dynGetItem, List.find?, keyMatch]
  | cons x rest ih =>
      by_cases h : keyMatch it.user_id it.period_id x
      · have hput : dynPutItem (x :: rest) it = it :: rest := by
          simp [dynPutItem, h]
        rw [dynGetItem, hput]
        simp [List.find?, keyMatch]
      · have hput : dynPutItem (x :: rest) it = x :: dynPutItem rest it := by
          simp [dynPutItem, h]
        rw [dynGetItem, hput]
        simpa [dynGetItem, List.find?, h] using ih

/-- C4 (amended): one `record` call adds the deltas to the bucket's
counters, sets `timestamp` (`created_at`) only when it is absent — an
existing value is preserved — and unconditionally overwrites `ttl` with the
value derived from the call time; an absent bucket is created with the
deltas and both attributes set. -/
theorem update_usage_created_at_once_ttl_overwritten (store : Store)
    (uid pid : String) (i o ts ttlv : Nat) :
    (dynGetItem store uid pid = none →
      dynGetItem (TokenMeter.update_usage false store uid pid i o ts ttlv).2 uid pid
        = some ⟨uid, pid, i, o, some ts, some ttlv⟩)
    ∧ (∀ it : Item, dynGetItem store uid pid = some it →
      dynGetItem (TokenMeter.update_usage false store uid pid i o ts ttlv).2 uid pid
        = some { it with input_tokens := it.input_tokens + i,
                         output_tokens := it.output_tokens + o,
                         timestamp := some (it.timestamp.getD ts),
                         ttl := some ttlv }) := by
  simp only [TokenMeter.update_usage, Bool.false_eq_true, if_false]
  induction store with
  | nil =>
      constructor
      · intro _
        simp [dynUpdateAdd, dynGetItem, List.find?, keyMatch]
      · intro it hit
        simp [dynGetItem, List.find?] at hit
  | cons x rest ih =>
      by_cases h : keyMatch uid pid x
      · have hx : dynGetItem (x :: rest) uid pid = some x := by
          simp [dynGetItem, List.find?, h]
        have h2 : keyMatch uid pid
            { x with input_tokens := x.input_tokens + i,
                     output_tokens := x.output_tokens + o,
                     timestamp := some (x.timestamp.getD ts),
                     ttl := some ttlv } = true := h
        constructor
        · intro hnone
          rw [hx] at hnone
          exact absurd hnone (by simp)
        · intro it hit
          rw [hx] at hit
          have hxit : x = it := by injection hit
          subst hxit
          simp [dynUpdateAdd, h, dynGetItem, List.find?, h2]
      · have hskip : dynGetItem (x :: rest) uid pid = dynGetItem rest uid pid := by
          simp [dynGetItem, List.find?, h]
        constructor
        · intro hnone
          rw [hskip] at hnone
          have := ih.1 hnone
          simp only [dynUpdateAdd, h, if_false, Bool.false_eq_true]
          simpa [dynGetItem, List.find?, h] using this
        · intro it hit
          rw [hskip] at hit
          have := ih.2 it hit
          simp only [dynUpdateAdd, h, if_false, Bool.false_eq_true]
          simpa [dynGetItem, List.find?, h] using this

set_option maxRecDepth 4000 in
/-- C4 counterexample: two successive `record` calls to the same bucket,
the first fixing `ttl = 100`, the second passing `ttl = 200`: after the
second call the bucket's `ttl` is 200 (the first writer's value was
overwritten), while `timestamp` keeps the first writer's value 10. -/
theorem update_usage_ttl_changes_counterexample :
    ((dynGetItem (TokenMeter.update_usage false
        (TokenMeter.update_usage false [] "u" "10min:2025-06-01:10:00" 1 2 10 100).2
        "u" "10min:2025-06-01:10:00" 3 4 20 200).2
        "u" "10min:2025-06-01:10:00").map Item.ttl) = some (some 200)
    ∧ ((dynGetItem (TokenMeter.update_usage false
        (TokenMeter.update_usage false [] "u" "10min:2025-06-01:10:00" 1 2 10 100).2
        "u" "10min:2025-06-01:10:00" 3 4 20 200).2
        "u" "10min:2025-06-01:10:00").map Item.timestamp) = some (some 10)
    ∧ some (some 200) ≠ (some (some 100) : Option (Option Nat)) := by decide

set_option maxRecDepth 4000 in
/-- Witness for the amended record-effect theorem: creating an absent
bucket, and updating the present reservation bucket of
`storeOneReservation` (its timestamp 0 is preserved, its ttl overwritten). -/
theorem update_usage_created_at_once_ttl_overwritten_witness :
    dynGetItem storeOneReservation "u" "10min:2025-06-01:10:00" = none
    ∧ dynGetItem storeOneReservation "u" "reservation:daily:2025-06-01:a1"
        = some ⟨"u", "reservation:daily:2025-06-01:a1", 0, 10000, some 0, some 600⟩
    ∧ dynGetItem (TokenMeter.update_usage false storeOneReservation "u"
        "10min:2025-06-01:10:00" 1 2 10 100).2 "u" "10min:2025-06-01:10:00"
        = some ⟨"u", "10min:2025-06-01:10:00", 1, 2, some 10, some 100⟩
    ∧ dynGetItem (TokenMeter.update_usage false storeOneReservation "u"
        "reservation:daily:2025-06-01:a1" 5 7 50 999).2 "u"
        "reservation:daily:2025-06-01:a1"
        = some ⟨"u", "reservation:daily:2025-06-01:a1", 5, 10007, some 0, some 999⟩ := by
  refine ⟨by decide, by decide, ?_, ?_⟩
  · exact (update_usage_created_at_once_ttl_overwritten storeOneReservation "u"
      "10min:2025-06-01:10:00" 1 2 10 100).1 (by decide)
  · exact (update_usage_created_at_once_ttl_overwritten storeOneReservation "u"
      "reservation:daily:2025-06-01:a1" 5 7 50 999).2
      ⟨"u", "reservation:daily:2025-06-01:a1", 0, 10000, some 0, some 600⟩ (by decide)

/-- C3 counterexample: a reservation record dated today whose ttl (100) has
already elapsed at time 1000 still contributes its full 500 tokens to
`get_total_reserved_tokens` — the spec-worded non-expired sum is 0. -/
theorem total_reserved_ignores_ttl_counterexample :
    TokenReservationManager.get_total_reserved_tokens false
        storeExpiredReservation "u" "2025-06-01" = 500
    ∧ spec_total_reserved_nonexpired storeExpiredReservation "u" "2025-06-01"
        1000 = 0
    ∧ (500 : Nat) ≠ 0 := by decide

/-- C3 (amended): `total_reserved` sums `reserved_output_tokens` over
exactly the principal's reservation records of today's namespace that are
present in the store, irrespective of their ttl (expiry is left to the
store's background deletion); a store query error yields 0. -/
theorem total_reserved_amended :
    (∀ (store : Store) (uid date : String),
      TokenReservationManager.get_total_reserved_tokens true store uid date = 0)
    ∧ (∀ (r : Item) (store : Store) (uid date : String),
        r.user_id = uid →
        beginsWith r.period_id (reservationPrefix date) = true →
        TokenReservationManager.get_total_reserved_tokens false (r :: store) uid date
          = r.output_tokens
            + TokenReservationManager.get_total_reserved_tokens false store uid date)
    ∧ (∀ (r : Item) (store : Store) (uid date : String),
        ¬ (r.user_id = uid ∧ beginsWith r.period_id (reservationPrefix date) = true) →
        TokenReservationManager.get_total_reserved_tokens false (r :: store) uid date
          = TokenReservationManager.get_total_reserved_tokens false store uid date) := by
  refine ⟨fun store uid date => rfl, ?_, ?_⟩
  · intro r store uid date h1 h2
    simp [TokenReservationManager.get_total_reserved_tokens,
      TokenReservationManager.get_active_reservations, dynQueryPrefix,
      List.filter_cons, h1, h2]
  · intro r store uid date h
    have hb : (r.user_id == uid
        && beginsWith r.period_id (reservationPrefix date)) = false := by
      by_cases he : r.user_id = uid
      · cases hbb : beginsWith r.period_id (reservationPrefix date) with
        | true => exact absurd ⟨he, hbb⟩ h
        | false => simp [he, hbb]
      · simp [he]
    simp [TokenReservationManager.get_total_reserved_tokens,
      TokenReservationManager.get_active_reservations, dynQueryPrefix,
      List.filter_cons, hb]

/-- Witness for the amended total-reserved theorem: the expired record of
`storeExpiredReservation` still contributes its 500 tokens. -/
theorem total_reserved_amended_witness :
    ((⟨"u", "reservation:daily:2025-06-01:a1", 0, 500, some 0, some 100⟩ : Item).user_id
        = "u")
    ∧ beginsWith "reservation:daily:2025-06-01:a1" (reservationPrefix "2025-06-01")
        = true
    ∧ TokenReservationManager.get_total_reserved_tokens false
        storeExpiredReservation "u" "2025-06-01"
        = 500 + TokenReservationManager.get_total_reserved_tokens false [] "u"
            "2025-06-01" := by
  refine ⟨rfl, by decide, ?_⟩
  exact total_reserved_amended.2.1
    ⟨"u", "reservation:daily:2025-06-01:a1", 0, 500, some 0, some 100⟩
    [] "u" "2025-06-01" rfl (by decide)

set_option maxRecDepth 10000 in
/-- C2 counterexample: with the limiter configured so that its
finest-grained (10-minute) policy has output limit 2000 while the
`DAILY_OUTPUT_LIMIT` environment value is the default 20000, the
reservation the limiter writes carries 10000 output tokens — not 1000, the
default-fraction half of the configured finest-grained output limit; the
fraction itself is hard-coded, not configurable. -/
theorem reservation_size_counterexample :
    reservation_amount DAILY_OUTPUT_LIMIT_default = 10000
    ∧ (create_ten_minute_period 10000 2000).output_limit = 2000
    ∧ spec_reservation_size 1 2 (create_ten_minute_period 10000 2000).output_limit
        = 1000
    ∧ (TokenLimiter.create_reservation
        [(create_ten_minute_period 10000 2000, ⟨0, 0⟩),
         (create_monthly_period 100000 200000, ⟨0, 0⟩)]
        DAILY_OUTPUT_LIMIT_default false false [] "u" "b1" "2025-06-01" 0 10).2
        = [⟨"u", reservationId "2025-06-01" "b1", 0, 10000, some 0, some 600⟩]
    ∧ (10000 : Nat) ≠ 1000 := by decide

/-- C2 (amended): the reservation size is the hard-coded half (floor) of
the `DAILY_OUTPUT_LIMIT` environment value, independent of the limits
configured on the limiter's meters; every reservation record is created
with exactly that many reserved output tokens, and the admission
arithmetic uses the same amount. -/
theorem reservation_size_amended (env : Nat) (store : Store)
    (uid uuid date : String) (now ttlMinutes : Nat) :
    (TokenReservationManager.create_reservation false store uid env uuid date
        now ttlMinutes).1 = some (reservationId date uuid)
    ∧ dynGetItem
        (TokenReservationManager.create_reservation false store uid env uuid
          date now ttlMinutes).2 uid (reservationId date uuid)
        = some ⟨uid, reservationId date uuid, 0, env / 2, some now,
            some (now + ttlMinutes * 60)⟩
    ∧ (∀ (ms : List (PeriodConfig × Usage)) (reserved : Nat),
        (TokenLimiter.is_limit_exceeded ms).exceeded = false →
        (TokenLimiter.is_limit_exceeded_with_reservation ms env
          reserved).usage.new_reservation_amount = some (env / 2)) := by
  refine ⟨rfl, ?_, ?_⟩
  · have h := dynGetItem_dynPutItem store
      ⟨uid, reservationId date uuid, 0, reservation_amount env, some now,
        some (now + ttlMinutes * 60)⟩
    simpa [TokenReservationManager.create_reservation, reservation_amount] using h
  · intro ms reserved hbase
    rw [with_reservation_of_not_exceeded ms env reserved hbase]
    split_ifs <;> rfl

/-- Witness for the amended reservation-size theorem at the default
environment limit 20000. -/
theorem reservation_size_amended_witness :
    (TokenLimiter.is_limit_exceeded metersDefault).exceeded = false
    ∧ (TokenLimiter.is_limit_exceeded_with_reservation metersDefault 20000
        0).usage.new_reservation_amount = some (20000 / 2) := by
  exact ⟨by decide,
    (reservation_size_amended 20000 [] "u" "b1" "2025-06-01" 0 10).2.2
      metersDefault 0 (by decide)⟩

/-- C5: `get_meter_limits` maps each meter name to a single number — the
meter's input limit; the output limits do not appear, so two meter lists
that differ only in their output limits produce the same map, contradicting
the documented `Limits() -> map<policyName, {inputLimit, outputLimit}>`. -/
theorem get_meter_limits_input_only :
    TokenLimiter.get_meter_limits
        [create_ten_minute_period 10000 20000, create_monthly_period 100000 200000]
      = [("10min", 10000), ("monthly", 100000)]
    ∧ TokenLimiter.get_meter_limits
        [create_ten_minute_period 10000 99999, create_monthly_period 100000 1]
      = TokenLimiter.get_meter_limits
        [create_ten_minute_period 10000 20000, create_monthly_period 100000 200000] := by
  decide

/-- C8: writes fail closed. When the base check passes and the reservation
arithmetic passes but the store `put_item` of the reservation fails, the
manager returns no reservation id and an unchanged table, the limiter's
`create_reservation` returns `None`, and the handler denies the request
with error type "reservation_failed" — never a raw store error, never an
admission without a reservation. -/
theorem reservation_create_fail_closed (ms : List (PeriodConfig × Usage))
    (env : Nat) (store : Store) (uid uuid date : String) (now ttlMinutes : Nat)
    (hbase : (TokenLimiter.is_limit_exceeded ms).exceeded = false)
    (harith : ¬ env < (TokenLimiter.is_limit_exceeded ms).usage.daily_output_tokens
        + TokenReservationManager.get_total_reserved_tokens false store uid date
        + reservation_amount env) :
    TokenReservationManager.create_reservation true store uid env uuid date now
        ttlMinutes = (none, store)
    ∧ TokenLimiter.create_reservation ms env false true store uid uuid date now
        ttlMinutes = (none, store)
    ∧ lambda_handler_admission ms env false true store uid uuid date now
        ttlMinutes = (.denied "reservation_failed" "output" "daily", store) := by
  refine ⟨rfl, ?_, ?_⟩
  · rw [TokenLimiter.create_reservation,
      with_reservation_of_not_exceeded ms env _ hbase, if_neg harith]
    rfl
  · rw [lambda_handler_admission, hbase]
    simp only [Bool.false_eq_true, if_false]
    rw [TokenLimiter.create_reservation,
      with_reservation_of_not_exceeded ms env _ hbase, if_neg harith]
    rfl

set_option maxRecDepth 4000 in
/-- Witness for the fail-closed write theorem: empty table, default limits,
failing `put_item`. -/
theorem reservation_create_fail_closed_witness :
    (TokenLimiter.is_limit_exceeded metersDefault).exceeded = false
    ∧ ¬ (20000 : Nat) <
        (TokenLimiter.is_limit_exceeded metersDefault).usage.daily_output_tokens
        + TokenReservationManager.get_total_reserved_tokens false [] "u" "2025-06-01"
        + reservation_amount 20000
    ∧ lambda_handler_admission metersDefault 20000 false true [] "u" "b1"
        "2025-06-01" 0 10 = (.denied "reservation_failed" "output" "daily", []) := by
  refine ⟨by decide, by decide, ?_⟩
  exact (reservation_create_fail_closed metersDefault 20000 [] "u" "b1"
    "2025-06-01" 0 10 (by decide) (by decide)).2.2

/-- C10 counterexample: with `DAILY_OUTPUT_LIMIT = 1` the reservation
record is written with reserved output `int(1 * 0.5) = 0`, which is not
positive. -/
theorem reservation_positive_counterexample :
    (TokenReservationManager.create_reservation false [] "u" 1 "b1"
        "2025-06-01" 0 10).2
      = [⟨"u", reservationId "2025-06-01" "b1", 0, 0, some 0, some 600⟩]
    ∧ ¬ 0 < (Item.output_tokens
        ⟨"u", reservationId "2025-06-01" "b1", 0, 0, some 0, some 600⟩) := by
  decide

/-- C10 (amended): every reservation record is created with `input_tokens`
equal to 0 and reserved output floor(env/2) — positive whenever the
configured daily output limit is at least 2 — so reservations never add to
input-token accounting; and whenever the base check passed, an exceeded
reservation-aware check reports token type "output" and period "daily",
never an input-kind denial. -/
theorem reservation_zero_input_output_denials (env : Nat) (store : Store)
    (uid uuid date : String) (now ttlMinutes : Nat) :
    dynGetItem
        (TokenReservationManager.create_reservation false store uid env uuid
          date now ttlMinutes).2 uid (reservationId date uuid)
      = some ⟨uid, reservationId date uuid, 0, env / 2, some now,
          some (now + ttlMinutes * 60)⟩
    ∧ (2 ≤ env → 0 < env / 2)
    ∧ (∀ (ms : List (PeriodConfig × Usage)) (reserved : Nat),
        (TokenLimiter.is_limit_exceeded ms).exceeded = false →
        (TokenLimiter.is_limit_exceeded_with_reservation ms env reserved).exceeded
          = true →
        (TokenLimiter.is_limit_exceeded_with_reservation ms env
            reserved).token_type = some "output"
        ∧ (TokenLimiter.is_limit_exceeded_with_reservation ms env
            reserved).period = some "daily") := by
  refine ⟨?_, ?_, ?_⟩
  · have h := dynGetItem_dynPutItem store
      ⟨uid, reservationId date uuid, 0, reservation_amount env, some now,
        some (now + ttlMinutes * 60)⟩
    simpa [TokenReservationManager.create_reservation, reservation_amount] using h
  · intro h; omega
  · intro ms reserved hbase hexc
    rw [with_reservation_of_not_exceeded ms env reserved hbase] at hexc ⊢
    by_cases hlt : env < (TokenLimiter.is_limit_exceeded ms).usage.daily_output_tokens
        + reserved + reservation_amount env
    · rw [if_pos hlt]
      exact ⟨rfl, rfl⟩
    · rw [if_neg hlt] at hexc
      simp at hexc

set_option maxRecDepth 4000 in
/-- Witness for the reservation-shape theorem: default environment limit,
and an exceeded reservation-aware check reporting "output"/"daily". -/
theorem reservation_zero_input_output_denials_witness :
    (2 : Nat) ≤ 20000
    ∧ (TokenLimiter.is_limit_exceeded metersDefault).exceeded = false
    ∧ (TokenLimiter.is_limit_exceeded_with_reservation metersDefault 20000
        20000).exceeded = true
    ∧ (TokenLimiter.is_limit_exceeded_with_reservation metersDefault 20000
        20000).token_type = some "output"
    ∧ dynGetItem
        (TokenReservationManager.create_reservation false [] "u" 20000 "b1"
          "2025-06-01" 0 10).2 "u" (reservationId "2025-06-01" "b1")
        = some ⟨"u", reservationId "2025-06-01" "b1", 0, 20000 / 2, some 0,
            some 600⟩ := by
  refine ⟨by decide, by decide, by decide, ?_, ?_⟩
  · exact ((reservation_zero_input_output_denials 20000 [] "u" "b1"
      "2025-06-01" 0 10).2.2 metersDefault 20000 (by decide) (by decide)).1
  · exact (reservation_zero_input_output_denials 20000 [] "u" "b1"
      "2025-06-01" 0 10).1
